import Mathlib

/-!
Shallow embedding of the deployment lifecycle manager of `src/main.py`
(Flask hosting control plane).  External effects (Docker engine calls,
subprocess exits, filesystem operations, socket polling) are modelled by
explicit environment records whose boolean fields record whether the
corresponding external call succeeds; the functions below mirror the
control flow of the Python route handlers and helpers that consume them.
-/

namespace Hosting

/-- Project lifecycle status strings used by `main.py`
(`stopped`, `deploying`, `running`, `error`). -/
inductive Status where
  | stopped
  | deploying
  | running
  | error
deriving DecidableEq, Repr

/-- The template kinds handled by `new_deployment` / `setup_project` /
the two deployment backends (`pyrogram-bot`, `static-site`, `web-service`,
`worker`, `vps`, `github-docker`, `github-custom`). -/
inductive Template where
  | pyrogramBot
  | staticSite
  | webService
  | worker
  | vps
  | githubDocker
  | githubCustom
deriving DecidableEq, Repr

/-- The kind-specific configuration mapping assembled by `new_deployment`
and stored JSON-serialized in `Project.config`.  A field is `none` when the
corresponding key is absent from the mapping or was stored as Python
`None` (i.e. the form field was missing from the POST); the route assembles
only the keys belonging to the project's template, so each consumer below
reads exactly the keys the route would have set for that template. -/
structure ProjectConfig where
  botToken : Option String := none
  apiId : Option String := none
  apiHash : Option String := none
  indexHtml : Option String := none
  requirements : Option String := none
  mainFile : Option String := none
  osBase : Option String := none
  packages : Option String := none
  githubRepo : Option String := none
  buildCommand : Option String := none
  startCommand : Option String := none
  ngrokToken : Option String := none
deriving DecidableEq, Repr

/-- The persisted `Project` row fields the lifecycle manager reads and
writes: template kind, status, backend handle (`container_id`, holding a
container id or a stringified pid, `none` = SQL NULL), assigned port and
parsed configuration. -/
structure Project where
  template : Template
  status : Status
  containerId : Option String
  port : Nat
  config : ProjectConfig
deriving DecidableEq, Repr

/-- The `jsonify({'success': ..., 'message': ...})` payload returned by the
lifecycle routes. -/
structure Response where
  success : Bool
  message : String
deriving DecidableEq, Repr

/-- Python truthiness of an optional string (`if value:`): `None` and the
empty string are falsy. -/
def truthy : Option String → Bool
  | none => false
  | some s => !(s == "")

/-- The template kinds treated as network-facing by `main.py`: the list
`['static-site', 'web-service', 'github-docker', 'github-custom']` used for
port mappings, the readiness port poll and the ngrok auto-start check. -/
def networkFacing (t : Template) : Bool :=
  t == .staticSite || t == .webService || t == .githubDocker || t == .githubCustom

/-- Outcomes of the external calls made by `start_docker_deployment`:
`git clone` exit status, `docker_client.images.build`, and the
create/start block of the container (whose id the engine chooses). -/
structure DockerEnv where
  cloneOk : Bool
  buildOk : Bool
  createStartOk : Bool
  newContainerId : String
deriving DecidableEq, Repr

/-- `start_docker_deployment(project)`: clone the GitHub repo when the
template is a GitHub kind and a repo URL is truthy (clone failure is
re-raised out of the clone+build `try` as a build failure), build the
image, then create and start the container; the container id is assigned
to `project.container_id` only after `container.start()` succeeds. -/
def start_docker_deployment (env : DockerEnv) (p : Project) : Except String Project :=
  if (p.template == .githubDocker || p.template == .githubCustom)
      && truthy p.config.githubRepo && !env.cloneOk then
    .error "Failed to build Docker image: Failed to clone GitHub repository"
  else if !env.buildOk then
    .error "Failed to build Docker image"
  else if !env.createStartOk then
    .error "Failed to start Docker container"
  else
    .ok { p with containerId := some env.newContainerId }

/-- Outcomes of the external calls made by `start_native_deployment`:
`git clone` exit status, whether `requirements.txt` exists in the project
directory, `pip install` exit status, the optional build command's exit
status, and whether `subprocess.Popen` succeeds (with the child pid). -/
structure NativeEnv where
  cloneOk : Bool
  requirementsFileExists : Bool
  installOk : Bool
  buildOk : Bool
  spawnOk : Bool
  pid : Nat

/-- The launch command chosen by `start_native_deployment` from the
template, or the exception raised while choosing it: a `github-custom`
project with `start_command` stored as `None` raises
(`None.split()` is an `AttributeError`), and templates with no native
launch branch raise `Unknown template`. -/
def nativeCmd (t : Template) (c : ProjectConfig) : Except String (List String) :=
  match t with
  | .pyrogramBot => .ok ["python", "bot.py"]
  | .staticSite => .ok ["python", "app.py"]
  | .webService =>
    match c.mainFile with
    | none => .error "TypeError: expected str, not None"
    | some m => .ok ["python", m]
  | .worker => .ok ["python", c.mainFile.getD "main.py"]
  | .githubCustom =>
    match c.startCommand with
    | none => .error "AttributeError: NoneType object has no attribute split"
    | some s => .ok (s.splitOn " ")
  | .vps => .error "Unknown template: vps"
  | .githubDocker => .error "Unknown template: github-docker"

/-- `start_native_deployment(project)`: create the log file, clone the
GitHub repo for GitHub kinds when the URL is truthy, `pip install` the
requirements file when present, run the `github-custom` build command when
truthy, pick the launch command, and spawn the child process; the child
pid is stored as the backend handle only after `Popen` succeeds. -/
def start_native_deployment (env : NativeEnv) (p : Project) : Except String Project :=
  if (p.template == .githubDocker || p.template == .githubCustom)
      && truthy p.config.githubRepo && !env.cloneOk then
    .error "Failed to clone GitHub repository"
  else if env.requirementsFileExists && !env.installOk then
    .error "Failed to install requirements"
  else if p.template == .githubCustom && truthy p.config.buildCommand && !env.buildOk then
    .error "Failed to run build command"
  else
    match nativeCmd p.template p.config with
    | .error e => .error e
    | .ok _cmd =>
      if !env.spawnOk then
        .error "Failed to start process"
      else
        .ok { p with containerId := some (toString env.pid) }

/-- Backend dispatch in `start_project` / `restart_project`:
`start_docker_deployment` when `docker_available`, otherwise
`start_native_deployment`. -/
def launch_backend (da : Bool) (denv : DockerEnv) (nenv : NativeEnv)
    (p : Project) : Except String Project :=
  if da then start_docker_deployment denv p else start_native_deployment nenv p

/-- `True` exactly when launching raised an exception. -/
def launchFailed : Except String Project → Bool
  | .error _ => true
  | .ok _ => false

/-- Route `POST /project/<id>/start` (`start_project`): reject with 400
when the status is `running`; otherwise commit status `deploying`, then
dispatch to the selected backend; an exception from the launch sets the
status to `error` and returns a 500 failure response. -/
def start_project (da : Bool) (denv : DockerEnv) (nenv : NativeEnv)
    (p : Project) : Response × Project :=
  if p.status == .running then
    ({ success := false, message := "Project is already running" }, p)
  else
    let p1 : Project := { p with status := .deploying }
    match launch_backend da denv nenv p1 with
    | .ok p2 => ({ success := true, message := "Project is starting" }, p2)
    | .error msg =>
      ({ success := false, message := msg }, { p1 with status := .error })

/-- Outcomes of the external calls made while stopping a backend:
the `container.stop()`/`container.remove()` block, and the
signal/poll/kill block of the native path. -/
structure StopEnv where
  dockerStopOk : Bool
  nativeKillOk : Bool
deriving DecidableEq, Repr

/-- `stop_docker_deployment(project)`: stop and remove the container, then
clear `container_id`; any exception is re-raised and leaves the handle
untouched. -/
def stop_docker_deployment (env : StopEnv) (p : Project) : Except String Project :=
  if env.dockerStopOk then
    .ok { p with containerId := none }
  else
    .error "Failed to stop Docker container"

/-- `stop_native_deployment(project)`: return immediately when the handle
is already `None`; otherwise SIGTERM, poll up to 10 s, SIGKILL if needed,
and clear the handle; any exception is re-raised with the handle
untouched. -/
def stop_native_deployment (env : StopEnv) (p : Project) : Except String Project :=
  if p.containerId == none then
    .ok p
  else if env.nativeKillOk then
    .ok { p with containerId := none }
  else
    .error "Failed to stop native process"

/-- Route `POST /project/<id>/stop` (`stop_project`): reject with 400 when
the status is not `running`; otherwise stop via the Docker path when
`docker_available` and a handle is set, else via the native path; on
success commit status `stopped`; an exception returns a 500 failure with
the status field untouched. -/
def stop_project (da : Bool) (env : StopEnv) (p : Project) : Response × Project :=
  if !(p.status == .running) then
    ({ success := false, message := "Project is not running" }, p)
  else
    match (if da && p.containerId.isSome
           then stop_docker_deployment env p
           else stop_native_deployment env p) with
    | .ok p2 =>
      ({ success := true, message := "Project stopped successfully" },
       { p2 with status := .stopped })
    | .error msg => ({ success := false, message := msg }, p)

/-- One Docker stats sample as consumed by `project_stats` /
`calculate_cpu_percent`, plus whether the `container.stats` fetch block
succeeds.  The cumulative CPU counters are modelled as integers and the
percentage arithmetic over the rationals. -/
structure StatsSample where
  fetchOk : Bool
  cpuTotalUsage : Int
  precpuTotalUsage : Int
  systemCpuUsage : Int
  preSystemCpuUsage : Int
  percpuLen : Nat
  memoryUsage : Nat
deriving DecidableEq, Repr

/-- `calculate_cpu_percent(stats)`: container CPU delta over system CPU
delta, scaled by `len(percpu_usage)` and 100, but only when both deltas
are strictly positive; otherwise `0.0`. -/
def calculate_cpu_percent (s : StatsSample) : ℚ :=
  let cpu_delta : Int := s.cpuTotalUsage - s.precpuTotalUsage
  let system_delta : Int := s.systemCpuUsage - s.preSystemCpuUsage
  if 0 < system_delta ∧ 0 < cpu_delta then
    ((cpu_delta : ℚ) / (system_delta : ℚ)) * (s.percpuLen : ℚ) * 100
  else
    0

/-- Payload of `GET /project/<id>/stats`: success flag, message, and the
computed CPU percentage / memory MB when present. -/
structure StatsResponse where
  success : Bool
  message : String
  cpuPercent : Option ℚ
  memoryMb : Option ℚ
deriving DecidableEq, Repr

/-- Route `GET /project/<id>/stats` (`project_stats`): reject with 400
when the status is not `running`; with Docker available and a handle set,
fetch a stats sample and return the CPU percentage and memory MB (an
exception in the fetch block yields a 500 failure); otherwise report that
native stats are unavailable (null handle) or the container is gone. -/
def project_stats (da : Bool) (sample : StatsSample) (p : Project) : StatsResponse :=
  if !(p.status == .running) then
    { success := false, message := "Project is not running",
      cpuPercent := none, memoryMb := none }
  else if da && p.containerId.isSome then
    if sample.fetchOk then
      { success := true, message := "",
        cpuPercent := some (calculate_cpu_percent sample),
        memoryMb := some ((sample.memoryUsage : ℚ) / (1024 * 1024)) }
    else
      { success := false, message := "stats fetch error",
        cpuPercent := none, memoryMb := none }
  else if p.containerId == none then
    { success := false, message := "Native deployment stats not available",
      cpuPercent := none, memoryMb := none }
  else
    { success := false, message := "Container not found",
      cpuPercent := none, memoryMb := none }

/-- The readiness wait loop of `monitor_container_health`: up to the given
number of one-second attempts, break as soon as `connect_ex` returns 0.
Per-attempt socket exceptions are swallowed by the inner `except: pass`,
so `connectResults` records the `connect_ex` outcome (or a nonzero stand-in
for a swallowed exception) of each attempt.  Returns whether the loop
broke early on a reachable port. -/
def portWait (connectResults : Nat → Int) : Nat → Bool
  | 0 => false
  | n + 1 => if connectResults n == 0 then true else portWait connectResults n

/-- The wait phase of `monitor_container_health`, by template: poll the
application port (network-facing kinds) or the fixed ttyd port (`vps`) for
30 attempts; `pyrogram-bot` sleeps 120 s and `worker` 10 s instead, which
always complete. -/
def containerWait (t : Template) (connectResults : Nat → Int) : Bool :=
  if networkFacing t then portWait connectResults 30
  else if t == .vps then portWait connectResults 30
  else true

/-- Environment of one `monitor_container_health` run: the per-attempt
poll outcomes, and whether an exception escapes the wait phase (the
per-attempt socket errors are swallowed, so this covers only failures
outside that inner handler). -/
structure ContainerMonitorEnv where
  connectResults : Nat → Int
  waitExc : Bool

/-- Background thread `monitor_container_health(project, container)`:
run the wait phase, then re-fetch the project row (`lookup`; gone rows are
skipped) and set its status to `running` regardless of whether the port
poll broke early or exhausted its attempts; when a truthy ngrok token is
configured and the template is network-facing, invoke
`start_ngrok_for_project` (returned as the second component; its own
failure is swallowed).  Any exception during the wait sets the status to
`error` instead. -/
def monitor_container_health (env : ContainerMonitorEnv) (p : Project)
    (lookup : Option Project) : Option Project × Bool :=
  if env.waitExc then
    (lookup.map fun q => { q with status := Status.error }, false)
  else
    let _reached := containerWait p.template env.connectResults
    match lookup with
    | none => (none, false)
    | some q =>
      (some { q with status := Status.running },
       truthy q.config.ngrokToken && networkFacing q.template)

/-- Environment of one `monitor_native_process` run: the child's drained
output lines, its exit code, and whether an exception interrupts the
read/wait. -/
structure NativeMonitorEnv where
  outputLines : List String
  returnCode : Int
  readExc : Bool

/-- Background thread `monitor_native_process(process, project, log_file)`:
drain the child's combined output into the log file, wait for exit, append
the exit code line, then re-fetch the project row and set its status to
`running` on exit code 0 and `error` otherwise.  An exception while
monitoring appends an error line and sets the status to `error`.  The log
file is modelled as the list of appended chunks. -/
def monitor_native_process (env : NativeMonitorEnv) (log : List String)
    (lookup : Option Project) : List String × Option Project :=
  if env.readExc then
    (log ++ ["\nError monitoring process\n"],
     lookup.map fun q => { q with status := Status.error })
  else
    (log ++ env.outputLines
         ++ ["\nProcess exited with code " ++ toString env.returnCode ++ "\n"],
     lookup.map fun q =>
       { q with status := if env.returnCode == 0 then Status.running else Status.error })

/-- A persisted `NgrokTunnel` row as far as deletion is concerned: the
deployment it references, its public URL and active flag. -/
structure NgrokTunnel where
  projectId : Nat
  publicUrl : String
  active : Bool
deriving DecidableEq, Repr

/-- The slice of the world `delete_project` mutates: the project row
(`none` once deleted), whether the materialized project directory exists,
and the tunnel row referencing the project, if any. -/
structure ProjectWorld where
  proj : Option Project
  dirExists : Bool
  tunnel : Option NgrokTunnel
deriving DecidableEq, Repr

/-- Outcomes of the external calls of `delete_project`: the backend stop,
`shutil.rmtree`, and `ngrok.disconnect` (whose failure is swallowed by
`stop_ngrok_tunnel`). -/
structure DeleteEnv where
  stopEnv : StopEnv
  rmtreeOk : Bool
  ngrokDisconnectOk : Bool
deriving DecidableEq, Repr

/-- Route `POST /project/<id>/delete` (`delete_project`): stop the backend
when the status is `running` (Docker path when available and a handle is
set, else native path); remove the project directory when it exists;
stop (best effort — `stop_ngrok_tunnel` swallows its own errors) and
delete the tunnel row when one exists; delete the project row.  Any
uncaught exception returns a 500 failure with the steps performed so far
kept. -/
def delete_project (da : Bool) (env : DeleteEnv) (w : ProjectWorld) :
    Response × ProjectWorld :=
  match w.proj with
  | none => ({ success := false, message := "Unauthorized" }, w)
  | some p =>
    match (if p.status == .running then
             (if da && p.containerId.isSome
              then stop_docker_deployment env.stopEnv p
              else stop_native_deployment env.stopEnv p)
           else .ok p) with
    | .error msg => ({ success := false, message := msg }, w)
    | .ok p2 =>
      if w.dirExists && !env.rmtreeOk then
        ({ success := false, message := "rmtree error" },
         { w with proj := some p2 })
      else
        ({ success := true, message := "Project deleted successfully" },
         { proj := none, dirExists := false, tunnel := none })

/-- The content of a template artifact written by `setup_project`,
identified by template and the configuration values substituted into it.
Python's `str.format` renders a `None` field as the text `None`. -/
inductive ArtifactContent where
  | botPy (botToken apiId apiHash : String)
  | indexHtml (html : String)
  | staticSiteApp
  | requirementsTxt (text : String)
  | webServiceMain
  | workerMain
  | vpsDockerfile (osBase packages : String)
  | vpsStartup
deriving DecidableEq, Repr

/-- One filesystem mutation performed by the creation pipeline:
`os.makedirs(project_dir)` in `new_deployment`, `os.makedirs(logs_dir)` in
`setup_project`, or writing one template artifact. -/
inductive FsOp where
  | makeProjectDir
  | makeLogsDir
  | writeArtifact (name : String) (content : ArtifactContent)
deriving DecidableEq, Repr

/-- Python `str.format` / f-string rendering of an optional string:
`None` renders as the text `None`. -/
def pyFmt : Option String → String
  | none => "None"
  | some s => s

/-- `setup_project(project, config)`: create the logs directory, then
write the template's artifacts.  Returns the filesystem mutations
performed in order and the exception raised part-way, if any (writing a
`None` value, or joining a path against `None`, is a `TypeError`; the two
GitHub kinds write nothing — their directory is populated by the clone
step at launch).  The mapping `config` carries exactly the keys
`new_deployment` sets for the template, so `config.get(key, default)`
falls back to its default only for templates whose branch never set the
key (`worker`), and otherwise returns the stored value even when that
value is `None`. -/
def setup_project (t : Template) (c : ProjectConfig) : List FsOp × Option String :=
  match t with
  | .pyrogramBot =>
    ([FsOp.makeLogsDir,
      FsOp.writeArtifact "bot.py"
        (ArtifactContent.botPy (pyFmt c.botToken) (pyFmt c.apiId) (pyFmt c.apiHash)),
      FsOp.writeArtifact "requirements.txt" (ArtifactContent.requirementsTxt "pyrogram\n")],
     none)
  | .staticSite =>
    match c.indexHtml with
    | none => ([FsOp.makeLogsDir], some "TypeError: write() argument must be str, not None")
    | some h =>
      ([FsOp.makeLogsDir,
        FsOp.writeArtifact "index.html" (ArtifactContent.indexHtml h),
        FsOp.writeArtifact "app.py" ArtifactContent.staticSiteApp,
        FsOp.writeArtifact "requirements.txt" (ArtifactContent.requirementsTxt "flask\n")],
       none)
  | .webService =>
    match c.mainFile with
    | none => ([FsOp.makeLogsDir], some "TypeError: join() argument must be str, not None")
    | some m =>
      match c.requirements with
      | none =>
        ([FsOp.makeLogsDir, FsOp.writeArtifact m ArtifactContent.webServiceMain],
         some "TypeError: write() argument must be str, not None")
      | some r =>
        ([FsOp.makeLogsDir,
          FsOp.writeArtifact m ArtifactContent.webServiceMain,
          FsOp.writeArtifact "requirements.txt" (ArtifactContent.requirementsTxt r)],
         none)
  | .worker =>
    ([FsOp.makeLogsDir,
      FsOp.writeArtifact (c.mainFile.getD "main.py") ArtifactContent.workerMain,
      FsOp.writeArtifact "requirements.txt"
        (ArtifactContent.requirementsTxt (c.requirements.getD ""))],
     none)
  | .vps =>
    ([FsOp.makeLogsDir,
      FsOp.writeArtifact "Dockerfile"
        (ArtifactContent.vpsDockerfile (c.osBase.getD "ubuntu:22.04") (c.packages.getD "")),
      FsOp.writeArtifact "startup.sh" ArtifactContent.vpsStartup],
     none)
  | .githubDocker => ([FsOp.makeLogsDir], none)
  | .githubCustom => ([FsOp.makeLogsDir], none)

/-- The template-specific configuration mapping assembled by the POST
branch of `new_deployment` from the submitted form (`form key` is
`request.form.get(key)`: `none` when the field is absent from the POST).
`os`, `packages` and `build_command` are read with defaults; all other
fields are stored as-is, `None` included — there is no required-field
check. -/
def buildConfig (t : Template) (form : String → Option String) : ProjectConfig :=
  match t with
  | .pyrogramBot =>
    { botToken := form "bot_token", apiId := form "api_id", apiHash := form "api_hash" }
  | .staticSite => { indexHtml := form "index_html" }
  | .webService => { requirements := form "requirements", mainFile := form "main_file" }
  | .worker => {}
  | .vps =>
    { osBase := some ((form "os").getD "ubuntu:22.04"),
      packages := some ((form "packages").getD "") }
  | .githubDocker => { githubRepo := form "github_repo" }
  | .githubCustom =>
    { githubRepo := form "github_repo",
      buildCommand := some ((form "build_command").getD ""),
      startCommand := form "start_command" }

/-- Python `int(s)` over a form value, as a partial parse: `none` models
the `ValueError` raised on a non-numeric string. -/
def pyInt (s : String) : Option Nat :=
  if s.data.length = 0 then none
  else if s.data.all Char.isDigit then
    some (s.data.foldl (fun n c => n * 10 + (c.toNat - 48)) 0)
  else none

/-- The POST branch of route `/new-deployment` (`new_deployment`):
check the plan's project limit, assemble the template-specific config
(no validation of its values), parse the port (`int(...)` raises on a
non-numeric field before anything is created), persist the project row,
create the project directory, run `setup_project`, and finally store a
truthy ngrok token into the config for network-facing templates.
Returns the stored config, the filesystem mutations performed in order,
and the exception raised part-way, if any (`none` = completed). -/
def new_deployment_post (underLimit : Bool) (t : Template)
    (form : String → Option String) : ProjectConfig × List FsOp × Option String :=
  if !underLimit then
    ({}, [], some "plan limit reached")
  else
    let config := buildConfig t form
    match pyInt ((form "port").getD "8000") with
    | none => (config, [], some "ValueError: invalid literal for int")
    | some _port =>
      let (ops, err) := setup_project t config
      match err with
      | some e => (config, FsOp.makeProjectDir :: ops, some e)
      | none =>
        let config2 :=
          if truthy (form "ngrok_token") && networkFacing t then
            { config with ngrokToken := form "ngrok_token" }
          else config
        (config2, FsOp.makeProjectDir :: ops, none)

/-! Concrete sample values used by witnesses and counterexamples. -/

/-- A Docker environment in which every external call succeeds. -/
def denvOk : DockerEnv := ⟨true, true, true, "c1"⟩

/-- A native environment in which every external call succeeds and no
requirements file is present. -/
def nenvOk : NativeEnv := ⟨true, false, true, true, true, 4242⟩

/-- A `web-service` project currently in status `deploying`. -/
def deployingProject : Project := ⟨.webService, .deploying, none, 8000, {}⟩

/-- A `web-service` project in status `stopped` with a cleared handle. -/
def stoppedProject : Project := ⟨.webService, .stopped, none, 8000, {}⟩

/-- A `web-service` project in status `running` backed by container `c9`. -/
def runningProject : Project := ⟨.webService, .running, some "c9", 8000, {}⟩

/-! Shared helper lemmas. -/

/-- A successful `stop_docker_deployment` always clears the backend
handle. -/
theorem stop_docker_deployment_ok_clears (env : StopEnv) (p p2 : Project)
    (he : stop_docker_deployment env p = .ok p2) : p2.containerId = none := by
  unfold stop_docker_deployment at he
  split_ifs at he
  injection he with h2
  subst h2
  rfl

/-- A successful `stop_native_deployment` always leaves the backend
handle cleared (either it was already `None`, or the kill path cleared
it). -/
theorem stop_native_deployment_ok_clears (env : StopEnv) (p p2 : Project)
    (he : stop_native_deployment env p = .ok p2) : p2.containerId = none := by
  unfold stop_native_deployment at he
  split_ifs at he with h1 h2
  · injection he with h2'
    subst h2'
    simpa using h1
  · injection he with h2'
    subst h2'
    rfl

/-- A successful launch (either backend) leaves the status field as it
found it: the launch helpers only assign the backend handle. -/
theorem launch_backend_ok_status (da : Bool) (denv : DockerEnv) (nenv : NativeEnv)
    (p p2 : Project) (he : launch_backend da denv nenv p = .ok p2) :
    p2.status = p.status := by
  unfold launch_backend at he
  cases da with
  | true =>
    rw [if_pos rfl] at he
    unfold start_docker_deployment at he
    split_ifs at he
    injection he with h2
    subst h2
    rfl
  | false =>
    rw [if_neg (by simp)] at he
    unfold start_native_deployment at he
    split_ifs at he
    · cases hc : nativeCmd p.template p.config with
      | error e => rw [hc] at he; cases he
      | ok cmd => rw [hc] at he; cases he
    · cases hc : nativeCmd p.template p.config with
      | error e => rw [hc] at he; cases he
      | ok cmd =>
        rw [hc] at he
        injection he with h2
        subst h2
        rfl

/-- Unfolding of `start_project` when the status guard does not fire. -/
theorem start_project_eq (da : Bool) (denv : DockerEnv) (nenv : NativeEnv)
    (p : Project) (h : (p.status == Status.running) = false) :
    start_project da denv nenv p =
      match launch_backend da denv nenv { p with status := .deploying } with
      | .ok p2 => ({ success := true, message := "Project is starting" }, p2)
      | .error msg =>
        ({ success := false, message := msg }, { p with status := .error }) := by
  have hc : ¬((p.status == Status.running) = true) := by simp [h]
  rw [start_project, if_neg hc]

/-- Unfolding of `stop_project` when the status guard does not fire. -/
theorem stop_project_eq (da : Bool) (env : StopEnv) (p : Project)
    (h : (p.status == Status.running) = true) :
    stop_project da env p =
      match (if da && p.containerId.isSome
             then stop_docker_deployment env p
             else stop_native_deployment env p) with
      | .ok p2 =>
        ({ success := true, message := "Project stopped successfully" },
         { p2 with status := .stopped })
      | .error msg => ({ success := false, message := msg }, p) := by
  have hc : ¬((!(p.status == Status.running)) = true) := by simp [h]
  rw [stop_project, if_neg hc]

/-! Claim theorems. -/

/-- C1 (counterexample): a start request issued while the deployment's
status is `deploying` is NOT rejected — with every external call
succeeding it returns a success response and launches a backend (the
container id is stored), contradicting the claim that such a request is
rejected with a failure response and no launch attempt.  `start_project`
only rejects status `running`. -/
theorem start_on_deploying_not_rejected :
    (start_project true denvOk nenvOk deployingProject).1.success = true ∧
    (start_project true denvOk nenvOk deployingProject).2.containerId = some "c1" := by
  decide

/-- C1 (amended): `start_project` rejects a start request, with a failure
response and no state change, exactly when the status is `running`; in
every other status — `stopped`, `error`, and also `deploying` — it
proceeds: the status is set to `deploying` and a backend launch is
attempted, leaving status `deploying` on a successful launch and `error`
on a failed one. -/
theorem start_rejected_only_when_running (da : Bool) (denv : DockerEnv)
    (nenv : NativeEnv) (p : Project) :
    (p.status = .running →
      start_project da denv nenv p =
        ({ success := false, message := "Project is already running" }, p)) ∧
    (p.status ≠ .running →
      ((start_project da denv nenv p).1.success = true ∧
        (start_project da denv nenv p).2.status = .deploying) ∨
      ((start_project da denv nenv p).1.success = false ∧
        (start_project da denv nenv p).2.status = .error)) := by
  constructor
  · intro h
    simp [start_project, h]
  · intro h
    have hb : (p.status == Status.running) = false := by
      simpa using h
    cases hl : launch_backend da denv nenv { p with status := .deploying } with
    | ok p2 =>
      left
      have hs := launch_backend_ok_status da denv nenv _ _ hl
      simp [start_project, hb, hl, hs]
    | error msg =>
      right
      simp [start_project, hb, hl]

/-- C1 (witness): a concrete `stopped` project with all external calls
succeeding proceeds into the non-rejected branch. -/
theorem start_rejected_only_when_running_witness :
    ((start_project true denvOk nenvOk stoppedProject).1.success = true ∧
      (start_project true denvOk nenvOk stoppedProject).2.status = .deploying) ∨
    ((start_project true denvOk nenvOk stoppedProject).1.success = false ∧
      (start_project true denvOk nenvOk stoppedProject).2.status = .error) :=
  (start_rejected_only_when_running true denvOk nenvOk stoppedProject).2 (by decide)

/-- C2: when no exception escapes the readiness wait of
`monitor_container_health` — for every possible sequence of port-poll
outcomes, reachable early or all attempts exhausted — the re-fetched
project's status is set to `running`, and the tunnel controller is
invoked exactly when a truthy ngrok token is configured and the template
is network-facing; when an exception escapes the wait, the status is set
to `error` instead.  Timeout is never mapped to `error`. -/
theorem monitor_container_health_spec (env : ContainerMonitorEnv) (p q : Project) :
    (env.waitExc = false →
      monitor_container_health env p (some q) =
        (some { q with status := Status.running },
         truthy q.config.ngrokToken && networkFacing q.template)) ∧
    (env.waitExc = true →
      monitor_container_health env p (some q) =
        (some { q with status := Status.error }, false)) := by
  constructor
  · intro h
    simp [monitor_container_health, h]
  · intro h
    simp [monitor_container_health, h]

/-- C2 (witness): with the port never becoming reachable (every
`connect_ex` poll returning 1, so all 30 attempts are exhausted) and no
exception, the status still becomes `running` and no tunnel is started
for a project without an ngrok token. -/
theorem monitor_container_health_timeout_witness :
    monitor_container_health ⟨fun _ => 1, false⟩ deployingProject (some deployingProject) =
      (some { deployingProject with status := Status.running }, false) :=
  ((monitor_container_health_spec ⟨fun _ => 1, false⟩ deployingProject deployingProject).1
    rfl).trans (by decide)

/-- C3: a successful stop of a `running` deployment terminates the
backend, sets the status to `stopped` and clears the backend handle, and
a subsequent stats request on the resulting project fails with the
"Project is not running" error. -/
theorem stop_then_stats (da : Bool) (env : StopEnv) (sample : StatsSample)
    (p : Project) (hrun : p.status = .running)
    (hok : (stop_project da env p).1.success = true) :
    (stop_project da env p).2.status = .stopped ∧
    (stop_project da env p).2.containerId = none ∧
    project_stats da sample (stop_project da env p).2 =
      { success := false, message := "Project is not running",
        cpuPercent := none, memoryMb := none } := by
  have hbe : (p.status == Status.running) = true := by simp [hrun]
  rw [stop_project_eq da env p hbe] at hok ⊢
  cases hd : (if da && p.containerId.isSome
              then stop_docker_deployment env p
              else stop_native_deployment env p) with
  | error msg =>
    rw [hd] at hok
    simp at hok
  | ok p2 =>
    have hclear : p2.containerId = none := by
      by_cases hb : (da && p.containerId.isSome) = true
      · rw [if_pos hb] at hd
        exact stop_docker_deployment_ok_clears env p p2 hd
      · rw [if_neg hb] at hd
        exact stop_native_deployment_ok_clears env p p2 hd
    exact ⟨rfl, hclear, rfl⟩

/-- C3 (witness): stopping a concrete running container-backed project
with a cooperative engine. -/
theorem stop_then_stats_witness :
    (stop_project true ⟨true, true⟩ runningProject).2.status = .stopped ∧
    (stop_project true ⟨true, true⟩ runningProject).2.containerId = none ∧
    project_stats true ⟨true, 0, 0, 0, 0, 1, 0⟩ (stop_project true ⟨true, true⟩ runningProject).2 =
      { success := false, message := "Project is not running",
        cpuPercent := none, memoryMb := none } :=
  stop_then_stats true ⟨true, true⟩ ⟨true, 0, 0, 0, 0, 1, 0⟩ runningProject rfl (by decide)

/-- C4: when the launch path raises before the backend is spawned
(clone, image build, dependency install or spawn failure in either
backend), `start_project` forces the status to `error`, returns a failure
response, and the backend handle stays null — it is never assigned for
the failed attempt. -/
theorem launch_failure_forces_error (da : Bool) (denv : DockerEnv)
    (nenv : NativeEnv) (p : Project) (hnr : p.status ≠ .running)
    (hnull : p.containerId = none)
    (hfail : launchFailed (launch_backend da denv nenv { p with status := .deploying }) = true) :
    (start_project da denv nenv p).1.success = false ∧
    (start_project da denv nenv p).2.status = .error ∧
    (start_project da denv nenv p).2.containerId = none := by
  have hb : (p.status == Status.running) = false := by simpa using hnr
  rw [start_project_eq da denv nenv p hb]
  cases hl : launch_backend da denv nenv { p with status := .deploying } with
  | ok p2 =>
    rw [hl] at hfail
    simp [launchFailed] at hfail
  | error msg =>
    exact ⟨rfl, rfl, hnull⟩

/-- C4 (witness): a docker image build failure on a fresh stopped project
(`buildOk := false`) yields status `error` with the handle still null. -/
theorem launch_failure_forces_error_witness :
    (start_project true ⟨true, false, true, "cX"⟩ nenvOk stoppedProject).1.success = false ∧
    (start_project true ⟨true, false, true, "cX"⟩ nenvOk stoppedProject).2.status = .error ∧
    (start_project true ⟨true, false, true, "cX"⟩ nenvOk stoppedProject).2.containerId = none :=
  launch_failure_forces_error true ⟨true, false, true, "cX"⟩ nenvOk stoppedProject
    (by decide) rfl (by decide)

/-- C5: when no exception interrupts `monitor_native_process`, the exit
code line is appended to the log file and the re-fetched project's status
becomes `running` on exit code 0 and `error` on a nonzero exit code. -/
theorem monitor_native_process_spec (env : NativeMonitorEnv) (log : List String)
    (q : Project) (h : env.readExc = false) :
    ("\nProcess exited with code " ++ toString env.returnCode ++ "\n")
        ∈ (monitor_native_process env log (some q)).1 ∧
    (monitor_native_process env log (some q)).2 =
      some { q with status := if env.returnCode == 0 then Status.running else Status.error } := by
  constructor
  · simp [monitor_native_process, h]
  · simp [monitor_native_process, h]

/-- C5 (witness): a native child exiting with code 1 gets its exit code
recorded in the log and the project status set to `error`. -/
theorem monitor_native_process_exit_one_witness :
    ("\nProcess exited with code " ++ toString (NativeMonitorEnv.mk [] 1 false).returnCode ++ "\n")
        ∈ (monitor_native_process ⟨[], 1, false⟩ [] (some stoppedProject)).1 ∧
    (monitor_native_process ⟨[], 1, false⟩ [] (some stoppedProject)).2 =
      some { stoppedProject with status := Status.error } :=
  ⟨(monitor_native_process_spec ⟨[], 1, false⟩ [] stoppedProject rfl).1,
   ((monitor_native_process_spec ⟨[], 1, false⟩ [] stoppedProject rfl).2).trans (by decide)⟩

/-- C6: a successful `delete_project` — in any starting status — leaves
no project row (hence no backend handle), no materialized project
directory, and no tunnel row referencing the deployment. -/
theorem delete_project_clean (da : Bool) (env : DeleteEnv) (w : ProjectWorld)
    (hok : (delete_project da env w).1.success = true) :
    (delete_project da env w).2.proj = none ∧
    (delete_project da env w).2.dirExists = false ∧
    (delete_project da env w).2.tunnel = none := by
  cases hw : w.proj with
  | none => simp [delete_project, hw] at hok
  | some p =>
    cases hd : (if p.status == Status.running then
                  (if da && p.containerId.isSome
                   then stop_docker_deployment env.stopEnv p
                   else stop_native_deployment env.stopEnv p)
                else .ok p) with
    | error msg =>
      rw [delete_project, hw] at hok
      simp only [hd] at hok
      simp at hok
    | ok p2 =>
      rw [delete_project, hw]
      rw [delete_project, hw] at hok
      simp only [hd] at hok ⊢
      by_cases hr : (w.dirExists && !env.rmtreeOk) = true
      · rw [if_pos hr] at hok
        simp at hok
      · rw [if_neg hr]
        exact ⟨rfl, rfl, rfl⟩

/-- C6 (witness): deleting a concrete running, container-backed project
whose directory exists and which owns a tunnel leaves an empty world. -/
theorem delete_project_clean_witness :
    (delete_project true ⟨⟨true, true⟩, true, true⟩
        ⟨some runningProject, true, some ⟨1, "https://x.ngrok.io", true⟩⟩).2.proj = none ∧
    (delete_project true ⟨⟨true, true⟩, true, true⟩
        ⟨some runningProject, true, some ⟨1, "https://x.ngrok.io", true⟩⟩).2.dirExists = false ∧
    (delete_project true ⟨⟨true, true⟩, true, true⟩
        ⟨some runningProject, true, some ⟨1, "https://x.ngrok.io", true⟩⟩).2.tunnel = none :=
  delete_project_clean true ⟨⟨true, true⟩, true, true⟩
    ⟨some runningProject, true, some ⟨1, "https://x.ngrok.io", true⟩⟩ (by decide)

/-- C7: when stopping a `running` deployment fails (the backend stop
raises), `stop_project` returns a failure response and leaves the whole
project row unchanged — in particular the status is still `running`, so
the stop can be retried. -/
theorem stop_failure_preserves_status (da : Bool) (env : StopEnv) (p : Project)
    (hrun : p.status = .running)
    (hfail : (stop_project da env p).1.success = false) :
    (stop_project da env p).2 = p ∧ (stop_project da env p).2.status = .running := by
  have hbe : (p.status == Status.running) = true := by simp [hrun]
  rw [stop_project_eq da env p hbe] at hfail ⊢
  cases hd : (if da && p.containerId.isSome
              then stop_docker_deployment env p
              else stop_native_deployment env p) with
  | ok p2 =>
    rw [hd] at hfail
    simp at hfail
  | error msg =>
    exact ⟨rfl, hrun⟩

/-- C7 (witness): a docker stop failure on a concrete running project
leaves it untouched and still `running`. -/
theorem stop_failure_preserves_status_witness :
    (stop_project true ⟨false, false⟩ runningProject).2 = runningProject ∧
    (stop_project true ⟨false, false⟩ runningProject).2.status = .running :=
  stop_failure_preserves_status true ⟨false, false⟩ runningProject rfl (by decide)

/-- C9: native backend termination is idempotent past a clean stop: a
successful `stop_native_deployment` leaves the handle null, and invoking
it again — under any environment, even one in which the kill calls would
fail — returns silently without raising and without changing anything. -/
theorem stop_native_deployment_idempotent (env env2 : StopEnv) (p p2 : Project)
    (h : stop_native_deployment env p = .ok p2) :
    p2.containerId = none ∧ stop_native_deployment env2 p2 = .ok p2 := by
  have hc := stop_native_deployment_ok_clears env p p2 h
  refine ⟨hc, ?_⟩
  rw [stop_native_deployment, if_pos (by simp [hc])]

/-- C9 (witness): terminating an already-stopped project (null handle)
under an environment in which every kill call would fail is a silent
no-op, twice over. -/
theorem stop_native_deployment_idempotent_witness :
    stoppedProject.containerId = none ∧
    stop_native_deployment ⟨false, false⟩ stoppedProject = .ok stoppedProject :=
  stop_native_deployment_idempotent ⟨false, false⟩ ⟨false, false⟩
    stoppedProject stoppedProject rfl

/-- C8 (counterexample): creating a `github-custom` project from a POST
in which every form field — including the required `start_command` — is
missing raises no validation error at all (the pipeline completes with no
exception) and nonetheless mutates the filesystem: the project directory
and the logs directory both get created. -/
theorem new_deployment_no_validation_cex :
    (new_deployment_post true Template.githubCustom (fun _ => none)).2.2 = none ∧
    FsOp.makeProjectDir ∈ (new_deployment_post true Template.githubCustom (fun _ => none)).2.1 ∧
    FsOp.makeLogsDir ∈ (new_deployment_post true Template.githubCustom (fun _ => none)).2.1 := by
  decide

/-- C8 (amended): project creation performs no required-field validation.
For a `github-custom` project, whatever configuration fields are missing
(start command included), `new_deployment` completes without raising and
creates the project directory and the logs directory; a stored-as-`None`
start command only surfaces later, when the native launch raises while
splitting it — so every native launch of such a project fails. -/
theorem creation_skips_validation (form : String → Option String)
    (nenv : NativeEnv) (p : Project) (hport : form "port" = none)
    (ht : p.template = .githubCustom) (hs : p.config.startCommand = none) :
    (new_deployment_post true .githubCustom form).2.2 = none ∧
    (new_deployment_post true .githubCustom form).2.1 =
      [FsOp.makeProjectDir, FsOp.makeLogsDir] ∧
    launchFailed (start_native_deployment nenv p) = true := by
  have hcmd : nativeCmd p.template p.config =
      .error "AttributeError: NoneType object has no attribute split" := by
    rw [ht]
    simp [nativeCmd, hs]
  refine ⟨?_, ?_, ?_⟩
  · simp only [new_deployment_post, hport]
    rfl
  · simp only [new_deployment_post, hport]
    rfl
  · rw [start_native_deployment]
    split_ifs <;> first | rfl | (rw [hcmd]; rfl)

/-- C8 (witness): the concrete all-fields-missing form, a cooperative
native environment and the project the route would have stored. -/
theorem creation_skips_validation_witness :
    (new_deployment_post true .githubCustom (fun _ => none)).2.2 = none ∧
    (new_deployment_post true .githubCustom (fun _ => none)).2.1 =
      [FsOp.makeProjectDir, FsOp.makeLogsDir] ∧
    launchFailed (start_native_deployment nenvOk
      ⟨.githubCustom, .stopped, none, 8000,
       buildConfig .githubCustom (fun _ => none)⟩) = true :=
  creation_skips_validation (fun _ => none) nenvOk
    ⟨.githubCustom, .stopped, none, 8000, buildConfig .githubCustom (fun _ => none)⟩
    rfl rfl (by decide)

/-- C10: `calculate_cpu_percent` is total and safe: its result is never
negative, and whenever the container CPU delta or the system CPU delta is
not strictly positive it returns exactly 0 — the division happens only
when both deltas are strictly positive. -/
theorem calculate_cpu_percent_safe (s : StatsSample) :
    0 ≤ calculate_cpu_percent s ∧
    ((s.cpuTotalUsage - s.precpuTotalUsage ≤ 0 ∨
      s.systemCpuUsage - s.preSystemCpuUsage ≤ 0) →
      calculate_cpu_percent s = 0) := by
  simp only [calculate_cpu_percent]
  split_ifs with h
  · obtain ⟨hs, hc⟩ := h
    constructor
    · have h1 : (0 : ℚ) ≤ ((s.cpuTotalUsage - s.precpuTotalUsage : Int) : ℚ) := by
        exact_mod_cast hc.le
      have h2 : (0 : ℚ) ≤ ((s.systemCpuUsage - s.preSystemCpuUsage : Int) : ℚ) := by
        exact_mod_cast hs.le
      have h3 : (0 : ℚ) ≤ (s.percpuLen : ℚ) := Nat.cast_nonneg _
      push_cast
      push_cast at h1 h2
      positivity
    · intro hle
      exfalso
      rcases hle with hle | hle
      · omega
      · omega
  · exact ⟨le_refl 0, fun _ => rfl⟩

/-- C10 (witness): a sample with a zero system delta evaluates to 0 and
is non-negative. -/
theorem calculate_cpu_percent_safe_witness :
    0 ≤ calculate_cpu_percent ⟨true, 5, 3, 7, 7, 4, 0⟩ ∧
    calculate_cpu_percent ⟨true, 5, 3, 7, 7, 4, 0⟩ = 0 :=
  ⟨(calculate_cpu_percent_safe ⟨true, 5, 3, 7, 7, 4, 0⟩).1,
   (calculate_cpu_percent_safe ⟨true, 5, 3, 7, 7, 4, 0⟩).2 (Or.inr (by decide))⟩

end Hosting
